import Mathlib

/-
Verification of the gated real-time room messaging gateway repository.

The repository consists of an architecture document (src/unnamed/part_000,
containing the SQL schema, the WebSocket message-type enumerations and the
Redis pub/sub channel naming), a Redis cluster management shell script
(src/redis-cluster-manager.sh) and a React Native entry component
(src/App.tsx).  The gateway components themselves (AccessGate, Sequencer,
MessageBroker, ConnectionManager) are described by the specification but
their code is not part of src/; those parts are modelled from the spec and
marked as such in their doc comments.
-/

namespace Gateway

/-! ## Stored chat messages (src/unnamed/part_000, table chat_messages)

The SQL column constraint is
`message_type VARCHAR(20) DEFAULT text CHECK (message_type IN
(text, document_share, highlight, system))`, each value a quoted SQL
string literal.  Reactions are stored in the separate `reactions JSONB`
column of the same table, not as a message type. -/

/-- The admissible values of `chat_messages.message_type`, exactly the list
in the SQL CHECK constraint. -/
def allowedMessageTypes : List String :=
  ["text", "document_share", "highlight", "system"]

/-- The CHECK constraint of the `chat_messages` table as a predicate on the
`message_type` column value: `message_type IN (text, document_share,
highlight, system)`. -/
def chatMessageTypeAllowed (t : String) : Bool :=
  t == "text" || t == "document_share" || t == "highlight" || t == "system"

/-! ## WebSocket message kinds (src/unnamed/part_000, WSMessageType /
WSBroadcastType) -/

/-- Incoming (client to gateway) WebSocket message kinds, one constructor
per member of the `WSMessageType` enum. -/
inductive WSMessageType
  | chatMessage
  | typingStart
  | typingStop
  | documentShare
  | highlightCreate
  | reactionAdd
  | socraticQuery
  deriving DecidableEq, Fintype, Repr

/-- The wire value of each `WSMessageType` member, as in the enum. -/
def WSMessageType.value : WSMessageType → String
  | .chatMessage => "chat_message"
  | .typingStart => "typing_start"
  | .typingStop => "typing_stop"
  | .documentShare => "document_share"
  | .highlightCreate => "highlight_create"
  | .reactionAdd => "reaction_add"
  | .socraticQuery => "socratic_query"

/-- All members of `WSMessageType`, in declaration order. -/
def allWSMessageTypes : List WSMessageType :=
  [.chatMessage, .typingStart, .typingStop, .documentShare,
   .highlightCreate, .reactionAdd, .socraticQuery]

/-- Outgoing (gateway to clients) WebSocket broadcast kinds, one
constructor per member of the `WSBroadcastType` enum. -/
inductive WSBroadcastType
  | newMessage
  | userJoined
  | userLeft
  | typingStatus
  | documentShared
  | highlightCreated
  | achievementEarned
  | socraticResponse
  deriving DecidableEq, Fintype, Repr

/-- The wire value of each `WSBroadcastType` member, as in the enum. -/
def WSBroadcastType.value : WSBroadcastType → String
  | .newMessage => "new_message"
  | .userJoined => "user_joined"
  | .userLeft => "user_left"
  | .typingStatus => "typing_status"
  | .documentShared => "document_shared"
  | .highlightCreated => "highlight_created"
  | .achievementEarned => "achievement_earned"
  | .socraticResponse => "socratic_response"

/-- All members of `WSBroadcastType`, in declaration order. -/
def allWSBroadcastTypes : List WSBroadcastType :=
  [.newMessage, .userJoined, .userLeft, .typingStatus,
   .documentShared, .highlightCreated, .achievementEarned,
   .socraticResponse]

/-- Modelled from the spec: the code enumerates the outbound kinds but does
not give the wire shape of an outbound event; the spec states every
outbound event carries `(room_id, sequence, type, payload, timestamp)`. -/
structure OutboundEvent where
  room_id : String
  sequence : Nat
  type : WSBroadcastType
  payload : String
  timestamp : Nat

/-- Modelled from the spec: serialization of an outbound event as the list
of its wire fields `(key, rendered value)`. -/
def serializeOutbound (e : OutboundEvent) : List (String × String) :=
  [("room_id", e.room_id),
   ("sequence", toString e.sequence),
   ("type", e.type.value),
   ("payload", e.payload),
   ("timestamp", toString e.timestamp)]

/-! ## Redis pub/sub channels (src/unnamed/part_000, Redis PubSub Channels)

The code names four channel shapes:
`room:ROOMID:messages`, `room:ROOMID:presence`,
`room:ROOMID:documents` and `global:notifications`. -/

/-- The per-room chat message channel `room:ROOMID:messages`. -/
def messagesChannel (roomId : String) : String :=
  "room:" ++ roomId ++ ":messages"

/-- The per-room presence channel `room:ROOMID:presence`. -/
def presenceChannel (roomId : String) : String :=
  "room:" ++ roomId ++ ":presence"

/-- The per-room document events channel `room:ROOMID:documents`. -/
def documentsChannel (roomId : String) : String :=
  "room:" ++ roomId ++ ":documents"

/-- The single cluster-wide system notification channel. -/
def globalNotificationsChannel : String :=
  "global:notifications"

/-- The closed set of pub/sub channel shapes used by the gateway: one per
room for messages, presence and documents, plus the cluster-wide
notification channel. -/
inductive Channel
  | messages (roomId : String)
  | presence (roomId : String)
  | documents (roomId : String)
  | globalNotifications
  deriving DecidableEq, Repr

/-- The channel name on the broker for each channel shape. -/
def Channel.name : Channel → String
  | .messages r => messagesChannel r
  | .presence r => presenceChannel r
  | .documents r => documentsChannel r
  | .globalNotifications => globalNotificationsChannel

end Gateway

namespace ClusterScript

/-! ## src/redis-cluster-manager.sh

The script runs a case dispatch on its first positional argument, with
the patterns start, stop, restart, status, nodes, monitor, test, scale
and backup selecting the matching handler function; a missing argument
defaults to the word help, and the final wildcard pattern catches help
together with every unrecognised word, running `show_help` only. -/

/-- The handler functions of the script; one constructor per function the
case dispatch can execute. -/
inductive Handler
  | start_cluster
  | stop_cluster
  | restart_cluster
  | check_status
  | show_nodes
  | monitor_cluster
  | test_performance
  | scale_up
  | backup_cluster
  | show_help
  deriving DecidableEq, Repr

/-- The command words the case dispatch recognises besides `help`. -/
def knownCommands : List String :=
  ["start", "stop", "restart", "status", "nodes", "monitor", "test",
   "scale", "backup"]

/-- The case dispatch of the script: the scrutinee substitutes the word
help for a missing first argument, and the final wildcard pattern catches
both the word help and every unrecognised word. -/
def dispatch (arg : Option String) : Handler :=
  match arg.getD "help" with
  | "start" => .start_cluster
  | "stop" => .stop_cluster
  | "restart" => .restart_cluster
  | "status" => .check_status
  | "nodes" => .show_nodes
  | "monitor" => .monitor_cluster
  | "test" => .test_performance
  | "scale" => .scale_up
  | "backup" => .backup_cluster
  | _ => .show_help

/-- Shell effects a handler of this script can perform.  `echoLine` is the
plain `echo` of a line to stdout (the `log_*` helpers all reduce to it);
the remaining constructors are the state-touching operations appearing in
the other handlers. -/
inductive Effect
  | echoLine (s : String)
  | dockerCompose (args : String)
  | redisCli (args : String)
  | dockerCp (args : String)
  | mkdirP (path : String)
  | sleepSec (n : Nat)
  deriving DecidableEq, Repr

/-- The body of `show_help`: a sequence of `echo` commands and nothing
else. -/
def show_help : List Effect :=
  [.echoLine "Redis Cluster Management Script",
   .echoLine "",
   .echoLine "Usage: $0 [COMMAND]",
   .echoLine "",
   .echoLine "Commands:",
   .echoLine "  start       Start the Redis cluster",
   .echoLine "  stop        Stop the Redis cluster",
   .echoLine "  restart     Restart the Redis cluster",
   .echoLine "  status      Check cluster status",
   .echoLine "  nodes       Show cluster nodes",
   .echoLine "  monitor     Monitor cluster in real-time",
   .echoLine "  test        Run performance test",
   .echoLine "  scale       Scale up cluster (placeholder)",
   .echoLine "  backup      Backup cluster data",
   .echoLine "  help        Show this help message",
   .echoLine "",
   .echoLine "Examples:",
   .echoLine "  $0 start",
   .echoLine "  $0 status",
   .echoLine "  $0 monitor"]

/-- Whether an effect only writes to stdout. -/
def Effect.isEcho : Effect → Bool
  | .echoLine _ => true
  | _ => false

end ClusterScript

namespace App

/-! ## src/App.tsx -/

/-- The screens registered on the stack navigator, in declaration order. -/
def appRoutes : List String := ["SignIn", "SignUp", "Home"]

/-- The `initialRouteName` prop of the stack navigator. -/
def appInitialRoute : String := "SignIn"

/-- The `headerShown` screen option of the navigator. -/
def appHeaderShown : Bool := false

/-- The boot messages of the Home screen. -/
def bootMessages : List String :=
  ["Initializing MINDCHAIN protocol...",
   "Loading Solana Web3 connections...",
   "Establishing WebSocket channels...",
   "Mounting document storage systems...",
   "Activating AI chat interfaces...",
   "Study platform ready."]

/-- The component state of `HomeScreen`: the single `booting` flag. -/
structure HomeState where
  booting : Bool
  deriving DecidableEq, Repr

/-- The initial Home screen state, `React.useState(true)`. -/
def homeInit : HomeState := ⟨true⟩

/-- What the Home screen renders: the boot sequence with its message list,
or the online content headed by the given terminal header. -/
inductive HomeRender
  | bootSeq (messages : List String)
  | online (header : String)
  deriving DecidableEq, Repr

/-- The render function of `HomeScreen`: the boot sequence while `booting`
holds, the SYSTEM STATUS: ONLINE content otherwise. -/
def homeRender (s : HomeState) : HomeRender :=
  if s.booting then .bootSeq bootMessages
  else .online "SYSTEM STATUS: ONLINE"

/-- The `onComplete` callback of the boot sequence: `setBooting(false)`. -/
def homeOnComplete (_ : HomeState) : HomeState := ⟨false⟩

end App

namespace Gateway

/-! ## AccessGate (spec section 4.1)

The AccessGate code is not under src/; it is modelled from the spec. -/

/-- Modelled from the spec: the cached authorization verdict of a grant. -/
inductive Verdict
  | allow
  | deny (reason : String)
  deriving DecidableEq, Repr

/-- Modelled from the spec: the result of `AccessGate.authorize`:
`Allow | Deny(reason) | Error`. -/
inductive AuthResult
  | Allow
  | Deny (reason : String)
  | Error
  deriving DecidableEq, Repr

/-- Modelled from the spec: an AccessGrant cache entry, keyed by
(principal, room), with verdict, verified-at, expires-at and the
verification snapshot (held token amount). -/
structure AccessGrant where
  verdict : Verdict
  verifiedAt : Nat
  expiresAt : Nat
  source : Nat
  deriving DecidableEq, Repr

/-- Modelled from the spec: the shared AccessGrant cache, an association
from (principal, room) keys to grants. -/
structure GateState where
  cache : List ((String × String) × AccessGrant)
  deriving DecidableEq, Repr

/-- Look up the grant cached for a (principal, room) key. -/
def lookupGrant (st : GateState) (p room : String) : Option AccessGrant :=
  (st.cache.find? (fun e => e.1 == (p, room))).map Prod.snd

/-- Remove every grant cached for a (principal, room) key. -/
def purgeGrant (st : GateState) (p room : String) : GateState :=
  ⟨st.cache.filter (fun e => !(e.1 == (p, room)))⟩

/-- Write a fresh grant for a (principal, room) key, replacing any cached
one (last-writer-wins). -/
def writeGrant (st : GateState) (p room : String) (g : AccessGrant) :
    GateState :=
  ⟨((p, room), g) :: (purgeGrant st p room).cache⟩

/-- Modelled from the spec: a room gating rule, `open`,
`token_amount_min` over an asset, or `nft_collection` membership. -/
inductive GatingRule
  | openRoom
  | tokenAmountMin (asset : String) (threshold : Nat)
  | nftCollection (collection : String)
  deriving DecidableEq, Repr

/-- Modelled from the spec: whether a holding snapshot satisfies a gating
rule. -/
def ruleSatisfied : GatingRule → Nat → Bool
  | .openRoom, _ => true
  | .tokenAmountMin _ threshold, holding => threshold ≤ holding
  | .nftCollection _, holding => 0 < holding

/-- Modelled from the spec: the outcome of the external chain-verification
call: a holding snapshot on success, or a timeout / failure. -/
inductive VerifyOutcome
  | ok (holding : Nat)
  | timeout
  | failure
  deriving DecidableEq, Repr

/-- Modelled from the spec: the configurable grant TTL (default short). -/
def grantTTL : Nat := 60

/-- The `AuthResult` a cached or fresh verdict produces. -/
def verdictResult : Verdict → AuthResult
  | .allow => .Allow
  | .deny r => .Deny r

/-- Modelled from the spec: the cache-miss path of `authorize` — call the
external verifier; on success write a fresh grant and return its verdict;
on verifier timeout or failure return `Error`, never silently allow. -/
def verifyAndCache (st : GateState) (p room : String) (rule : GatingRule)
    (now : Nat) (outcome : VerifyOutcome) : AuthResult × GateState :=
  match outcome with
  | .ok holding =>
      let v : Verdict :=
        if ruleSatisfied rule holding then .allow
        else .deny "gating rule not satisfied"
      (verdictResult v,
       writeGrant st p room ⟨v, now, now + grantTTL, holding⟩)
  | .timeout => (.Error, st)
  | .failure => (.Error, st)

/-- Modelled from the spec: `authorize(principal, room, action)` — look up
the AccessGrant cache; if a grant is present and unexpired return its
verdict; otherwise call the external verifier via `verifyAndCache`. -/
def authorize (st : GateState) (p room : String) (rule : GatingRule)
    (now : Nat) (outcome : VerifyOutcome) : AuthResult × GateState :=
  match lookupGrant st p room with
  | some g =>
      if now < g.expiresAt then (verdictResult g.verdict, st)
      else verifyAndCache st p room rule now outcome
  | none => verifyAndCache st p room rule now outcome

/-- Modelled from the spec: the explicit invalidation events — a ban of a
principal in a room, or a change of a room gating rule. -/
inductive InvalidationEvent
  | ban (p room : String)
  | ruleChange (room : String)
  deriving DecidableEq, Repr

/-- Whether a cached grant key matches an invalidation event. -/
def grantMatches : InvalidationEvent → String × String → Bool
  | .ban p room, k => k == (p, room)
  | .ruleChange room, k => k.2 == room

/-- Modelled from the spec: one processing cycle of an invalidation event
proactively purges every matching grant, with no regard to its expiry. -/
def processInvalidation (st : GateState) (e : InvalidationEvent) :
    GateState :=
  ⟨st.cache.filter (fun en => ! grantMatches e en.1)⟩

/-! ## Sequencer (spec section 4.2)

The Sequencer code is not under src/; it is modelled from the spec: a
shared per-room counter with atomic increment-and-get semantics, not
gateway-local memory. -/

/-- Modelled from the spec: the shared sequence counters, one per room. -/
structure SeqState where
  counters : List (String × Nat)
  deriving DecidableEq, Repr

/-- The current value of the shared counter of a room (0 before the first
call). -/
def currentSeq (st : SeqState) (room : String) : Nat :=
  ((st.counters.find? (fun e => e.1 == room)).map Prod.snd).getD 0

/-- Modelled from the spec: `next(room)` — atomic increment-and-get of the
shared per-room counter, returning the incremented value. -/
def next (st : SeqState) (room : String) : Nat × SeqState :=
  let n := currentSeq st room + 1
  (n, ⟨(room, n) :: st.counters.filter (fun e => !(e.1 == room))⟩)

/-- The values returned by `k` successive `next` calls for one room
against the shared state — issued by any interleaving of gateway
instances, since the counter lives in the shared state, not in an
instance. -/
def nextCalls (st : SeqState) (room : String) : Nat → List Nat
  | 0 => []
  | k + 1 =>
      let r := next st room
      r.1 :: nextCalls r.2 room k

/-! ## MessageBroker delivery and client dedup (spec sections 4.3, 8)

The broker and dedup code is not under src/; it is modelled from the
spec: a subscriber of a room channel receives every published event at
least once, possibly duplicated, in non-decreasing sequence order, and
deduplicates by sequence number. -/

/-- Modelled from the spec: client-side dedup keyed by sequence number
within a room channel — an event is kept only if its sequence number has
not been seen before. -/
def clientDedup (seen : List Nat) : List Nat → List Nat
  | [] => []
  | s :: rest =>
      if s ∈ seen then clientDedup seen rest
      else s :: clientDedup (s :: seen) rest

/-! ## ConnectionManager state machine (spec section 4.5)

The ConnectionManager code is not under src/; it is modelled from the
spec. -/

/-- Modelled from the spec: the connection states
`Connecting → Authorizing → Joined → Closing → Closed`. -/
inductive ConnState
  | Connecting
  | Authorizing
  | Joined
  | Closing
  | Closed
  deriving DecidableEq, Fintype, Repr

/-- Position of a state along the lifecycle chain. -/
def ConnState.rank : ConnState → Nat
  | .Connecting => 0
  | .Authorizing => 1
  | .Joined => 2
  | .Closing => 3
  | .Closed => 4

/-- Modelled from the spec: the events driving the connection state
machine. -/
inductive ConnEvent
  | handshakeComplete
  | authorized
  | authDenied
  | authTimeout
  | inboundMessage
  | transportError
  | leaveRequest
  | banned
  | accessRevoked
  | resourcesReleased
  deriving DecidableEq, Fintype, Repr

/-- Modelled from the spec: the transition function of the connection
state machine.  `Closed` is terminal; any transport error, explicit
leave, ban or access revocation forces `Closing`; the handshake moves
`Connecting` to `Authorizing`; authorization success moves `Authorizing`
to `Joined` while denial or timeout moves it to `Closing`; inbound
application messages keep `Joined` in `Joined`; releasing resources moves
`Closing` to `Closed`. -/
def connStep : ConnState → ConnEvent → ConnState
  | .Closed, _ => .Closed
  | .Closing, .resourcesReleased => .Closed
  | .Closing, _ => .Closing
  | _, .transportError => .Closing
  | _, .leaveRequest => .Closing
  | _, .banned => .Closing
  | _, .accessRevoked => .Closing
  | .Connecting, .handshakeComplete => .Authorizing
  | .Authorizing, .authorized => .Joined
  | .Authorizing, .authDenied => .Closing
  | .Authorizing, .authTimeout => .Closing
  | .Joined, .inboundMessage => .Joined
  | s, _ => s

/-- Modelled from the spec: whether an inbound application message is
processed in a state — `Joined` is the only state in which inbound
application messages are processed. -/
def processesInbound (s : ConnState) : Bool :=
  s == .Joined

/-! ## Helper lemmas -/

/-- When two list concatenations are equal, their suffixes agree at every
position counted from the end that lies inside both suffixes. -/
theorem rev_getElem_of_append_eq {α : Type} {l1 l2 s1 s2 : List α}
    (h : l1 ++ s1 = l2 ++ s2) (k : Nat)
    (hk1 : k < s1.length) (hk2 : k < s2.length) :
    s1.reverse[k]? = s2.reverse[k]? := by
  have h2 : s1.reverse ++ l1.reverse = s2.reverse ++ l2.reverse := by
    simpa [List.reverse_append] using congrArg List.reverse h
  have e1 : (s1.reverse ++ l1.reverse)[k]? = s1.reverse[k]? :=
    List.getElem?_append_left (by simpa using hk1)
  have e2 : (s2.reverse ++ l2.reverse)[k]? = s2.reverse[k]? :=
    List.getElem?_append_left (by simpa using hk2)
  rw [← e1, ← e2, h2]

/-- Two per-room channel names with the same suffix and equal full names
come from the same room. -/
theorem room_channel_inj (sfx r1 r2 : String)
    (h : "room:" ++ r1 ++ sfx = "room:" ++ r2 ++ sfx) : r1 = r2 := by
  have hd : "room:".data ++ (r1.data ++ sfx.data) =
      "room:".data ++ (r2.data ++ sfx.data) := by
    simpa [String.data_append, List.append_assoc] using
      congrArg String.data h
  have h1 : r1.data ++ sfx.data = r2.data ++ sfx.data :=
    List.append_cancel_left hd
  have h2 : r1.data = r2.data := List.append_cancel_right h1
  cases r1; cases r2; exact congrArg String.mk h2

/-- Two per-room channel names whose suffixes differ at some position
counted from the end are never equal, whatever the rooms. -/
theorem room_channel_ne (sfx1 sfx2 : String) (k : Nat)
    (hk1 : k < sfx1.data.length) (hk2 : k < sfx2.data.length)
    (hne : sfx1.data.reverse[k]? ≠ sfx2.data.reverse[k]?)
    (r1 r2 : String) :
    "room:" ++ r1 ++ sfx1 ≠ "room:" ++ r2 ++ sfx2 := by
  intro h
  have hd : ("room:".data ++ r1.data) ++ sfx1.data =
      ("room:".data ++ r2.data) ++ sfx2.data := by
    simpa [String.data_append, List.append_assoc] using
      congrArg String.data h
  exact hne (rev_getElem_of_append_eq hd k hk1 hk2)

/-- The cluster-wide notification channel name differs from every per-room
channel name. -/
theorem global_ne_room_channel (sfx r : String) :
    globalNotificationsChannel ≠ "room:" ++ r ++ sfx := by
  intro h
  have hd : "global:notifications".data =
      "room:".data ++ (r.data ++ sfx.data) := by
    simpa [globalNotificationsChannel, String.data_append,
      List.append_assoc] using congrArg String.data h
  have h0 : "global:notifications".data[0]? =
      ("room:".data ++ (r.data ++ sfx.data))[0]? := congrArg (·[0]?) hd
  rw [List.getElem?_append_left (by decide)] at h0
  exact absurd h0 (by decide)

/-- Distinct channel shapes or distinct rooms give distinct channel
names. -/
theorem channel_name_inj (c1 c2 : Channel) (h : c1.name = c2.name) :
    c1 = c2 := by
  cases c1 <;> cases c2 <;>
    simp only [Channel.name, messagesChannel, presenceChannel,
      documentsChannel] at h
  case messages.messages r1 r2 =>
    exact congrArg Channel.messages (room_channel_inj ":messages" r1 r2 h)
  case messages.presence r1 r2 =>
    exact absurd h (room_channel_ne ":messages" ":presence" 0
      (by decide) (by decide) (by decide) r1 r2)
  case messages.documents r1 r2 =>
    exact absurd h (room_channel_ne ":messages" ":documents" 1
      (by decide) (by decide) (by decide) r1 r2)
  case messages.globalNotifications r1 =>
    exact absurd h.symm (global_ne_room_channel ":messages" r1)
  case presence.messages r1 r2 =>
    exact absurd h (room_channel_ne ":presence" ":messages" 0
      (by decide) (by decide) (by decide) r1 r2)
  case presence.presence r1 r2 =>
    exact congrArg Channel.presence (room_channel_inj ":presence" r1 r2 h)
  case presence.documents r1 r2 =>
    exact absurd h (room_channel_ne ":presence" ":documents" 0
      (by decide) (by decide) (by decide) r1 r2)
  case presence.globalNotifications r1 =>
    exact absurd h.symm (global_ne_room_channel ":presence" r1)
  case documents.messages r1 r2 =>
    exact absurd h (room_channel_ne ":documents" ":messages" 1
      (by decide) (by decide) (by decide) r1 r2)
  case documents.presence r1 r2 =>
    exact absurd h (room_channel_ne ":documents" ":presence" 0
      (by decide) (by decide) (by decide) r1 r2)
  case documents.documents r1 r2 =>
    exact congrArg Channel.documents (room_channel_inj ":documents" r1 r2 h)
  case documents.globalNotifications r1 =>
    exact absurd h.symm (global_ne_room_channel ":documents" r1)
  case globalNotifications.messages r1 =>
    exact absurd h (global_ne_room_channel ":messages" r1)
  case globalNotifications.presence r1 =>
    exact absurd h (global_ne_room_channel ":presence" r1)
  case globalNotifications.documents r1 =>
    exact absurd h (global_ne_room_channel ":documents" r1)
  case globalNotifications.globalNotifications =>
    rfl

/-- After purging a key, no grant is cached for it any more. -/
theorem lookupGrant_purge (st : GateState) (p room : String) :
    lookupGrant (purgeGrant st p room) p room = none := by
  have : (purgeGrant st p room).cache.find?
      (fun e => e.1 == (p, room)) = none := by
    rw [List.find?_eq_none]
    intro x hx
    have := (List.mem_filter.mp hx).2
    simpa using this
  simp [lookupGrant, this]

/-- The verdict of the verifier path does not depend on the incoming cache
state. -/
theorem verifyAndCache_fst_congr (st st' : GateState) (p room : String)
    (rule : GatingRule) (now : Nat) (outcome : VerifyOutcome) :
    (verifyAndCache st p room rule now outcome).1 =
      (verifyAndCache st' p room rule now outcome).1 := by
  cases outcome <;> rfl

/-- After one invalidation cycle, every matching key has no cached
grant. -/
theorem lookupGrant_processInvalidation (st : GateState)
    (e : InvalidationEvent) (p room : String)
    (hm : grantMatches e (p, room) = true) :
    lookupGrant (processInvalidation st e) p room = none := by
  have : (processInvalidation st e).cache.find?
      (fun en => en.1 == (p, room)) = none := by
    rw [List.find?_eq_none]
    intro x hx hbeq
    have hfalse : grantMatches e x.1 = false := by
      have := (List.mem_filter.mp hx).2
      simpa using this
    have hxk : x.1 = (p, room) := by
      simp only [beq_iff_eq] at hbeq
      exact hbeq
    rw [hxk, hm] at hfalse
    exact Bool.noConfusion hfalse
  simp [lookupGrant, this]

/-- After a `next` call, the shared counter of the room holds the value
just returned. -/
theorem currentSeq_next (st : SeqState) (room : String) :
    currentSeq (next st room).2 room = (next st room).1 := by
  simp [currentSeq, next, List.find?]

/-- Every value a run of `next` calls returns is above the counter value
the run started from. -/
theorem currentSeq_lt_nextCalls (k : Nat) :
    ∀ (st : SeqState) (room : String) (n : Nat),
      n ∈ nextCalls st room k → currentSeq st room < n := by
  induction k with
  | zero => intro st room n hn; simp [nextCalls] at hn
  | succ k ih =>
      intro st room n hn
      simp only [nextCalls, List.mem_cons] at hn
      have hn1 : (next st room).1 = currentSeq st room + 1 := rfl
      rcases hn with h | h
      · omega
      · have h1 := ih (next st room).2 room n h
        rw [currentSeq_next] at h1
        omega

/-- The values a run of `next` calls returns are pairwise strictly
increasing. -/
theorem nextCalls_pairwise (k : Nat) :
    ∀ (st : SeqState) (room : String),
      List.Pairwise (· < ·) (nextCalls st room k) := by
  induction k with
  | zero => intro st room; simp [nextCalls]
  | succ k ih =>
      intro st room
      simp only [nextCalls]
      refine List.Pairwise.cons ?_ (ih _ room)
      intro n hn
      have h1 := currentSeq_lt_nextCalls k _ room n hn
      rw [currentSeq_next] at h1
      exact h1

/-- The client dedup output is a sublist of its input. -/
theorem clientDedup_sublist (l : List Nat) :
    ∀ seen : List Nat, List.Sublist (clientDedup seen l) l := by
  induction l with
  | nil => intro seen; simp [clientDedup]
  | cons a rest ih =>
      intro seen
      simp only [clientDedup]
      by_cases h : a ∈ seen
      · simp only [h, if_pos]
        exact (ih seen).cons a
      · simp only [h, if_neg, not_false_iff]
        exact (ih (a :: seen)).cons₂ a

/-- Membership in the client dedup output: an event is kept exactly when
it occurs in the input and its sequence number was not seen before. -/
theorem mem_clientDedup (l : List Nat) :
    ∀ (seen : List Nat) (s : Nat),
      s ∈ clientDedup seen l ↔ s ∈ l ∧ s ∉ seen := by
  induction l with
  | nil => intro seen s; simp [clientDedup]
  | cons a rest ih =>
      intro seen s
      simp only [clientDedup]
      by_cases h : a ∈ seen
      · simp only [h, if_pos, ih, List.mem_cons]
        constructor
        · rintro ⟨hs, hns⟩; exact ⟨Or.inr hs, hns⟩
        · rintro ⟨hs | hs, hns⟩
          · exact absurd (hs ▸ h) hns
          · exact ⟨hs, hns⟩
      · simp only [h, if_neg, not_false_iff, List.mem_cons, ih]
        by_cases hsa : s = a
        · subst hsa; simp [h]
        · simp [hsa]

/-- The client dedup output has no duplicate sequence numbers. -/
theorem clientDedup_nodup (l : List Nat) :
    ∀ seen : List Nat, (clientDedup seen l).Nodup := by
  induction l with
  | nil => intro seen; simp [clientDedup]
  | cons a rest ih =>
      intro seen
      simp only [clientDedup]
      by_cases h : a ∈ seen
      · simp only [h, if_pos]; exact ih seen
      · simp only [h, if_neg, not_false_iff]
        refine List.Nodup.cons ?_ (ih (a :: seen))
        intro hmem
        have := (mem_clientDedup rest (a :: seen) a).mp hmem
        exact this.2 (List.mem_cons_self a seen)

end Gateway

/-! ## Claims -/

/-- C1: an AccessGrant cache entry whose expires-at has passed is never
used by `authorize` to produce a verdict — with only an expired matching
entry in the cache the verdict equals the verdict computed with that entry
purged — and processing a ban or room-rule-change invalidation event
removes every matching grant in one cycle, whatever its remaining TTL. -/
theorem claim_C1_grant_expiry_and_invalidation :
    (∀ (st : Gateway.GateState) (p room : String)
       (rule : Gateway.GatingRule) (now : Nat)
       (outcome : Gateway.VerifyOutcome) (g : Gateway.AccessGrant),
       Gateway.lookupGrant st p room = some g → g.expiresAt ≤ now →
       (Gateway.authorize st p room rule now outcome).1 =
         (Gateway.authorize (Gateway.purgeGrant st p room) p room rule now
            outcome).1) ∧
    (∀ (st : Gateway.GateState) (e : Gateway.InvalidationEvent)
       (p room : String),
       Gateway.grantMatches e (p, room) = true →
       Gateway.lookupGrant (Gateway.processInvalidation st e) p room =
         none) := by
  constructor
  · intro st p room rule now outcome g hg hexp
    simp only [Gateway.authorize, hg, Gateway.lookupGrant_purge]
    rw [if_neg (Nat.not_lt.mpr hexp)]
    exact Gateway.verifyAndCache_fst_congr st (Gateway.purgeGrant st p room)
      p room rule now outcome
  · intro st e p room hm
    exact Gateway.lookupGrant_processInvalidation st e p room hm

/-- Witness for C1 at a concrete expired grant and a concrete ban. -/
theorem claim_C1_witness :
    (Gateway.authorize
        ⟨[(("alice", "r1"), ⟨Gateway.Verdict.allow, 0, 5, 100⟩)]⟩
        "alice" "r1" Gateway.GatingRule.openRoom 10
        Gateway.VerifyOutcome.timeout).1 =
      (Gateway.authorize
        (Gateway.purgeGrant
          ⟨[(("alice", "r1"), ⟨Gateway.Verdict.allow, 0, 5, 100⟩)]⟩
          "alice" "r1")
        "alice" "r1" Gateway.GatingRule.openRoom 10
        Gateway.VerifyOutcome.timeout).1 ∧
    Gateway.lookupGrant
      (Gateway.processInvalidation
        ⟨[(("alice", "r1"), ⟨Gateway.Verdict.allow, 0, 5, 100⟩)]⟩
        (Gateway.InvalidationEvent.ban "alice" "r1")) "alice" "r1" =
      none :=
  ⟨claim_C1_grant_expiry_and_invalidation.1
     ⟨[(("alice", "r1"), ⟨Gateway.Verdict.allow, 0, 5, 100⟩)]⟩
     "alice" "r1" Gateway.GatingRule.openRoom 10
     Gateway.VerifyOutcome.timeout ⟨Gateway.Verdict.allow, 0, 5, 100⟩
     (by decide) (by decide),
   claim_C1_grant_expiry_and_invalidation.2
     ⟨[(("alice", "r1"), ⟨Gateway.Verdict.allow, 0, 5, 100⟩)]⟩
     (Gateway.InvalidationEvent.ban "alice" "r1") "alice" "r1"
     (by decide)⟩

/-- C2: with no unexpired AccessGrant cached for the (principal, room)
key, a verifier timeout or failure makes `authorize` return `Error` and
never `Allow` — verifier failure never grants access. -/
theorem claim_C2_verifier_failure_denies :
    ∀ (st : Gateway.GateState) (p room : String)
      (rule : Gateway.GatingRule) (now : Nat),
      (∀ g, Gateway.lookupGrant st p room = some g → g.expiresAt ≤ now) →
      (Gateway.authorize st p room rule now
          Gateway.VerifyOutcome.timeout).1 = Gateway.AuthResult.Error ∧
      (Gateway.authorize st p room rule now
          Gateway.VerifyOutcome.failure).1 = Gateway.AuthResult.Error ∧
      (Gateway.authorize st p room rule now
          Gateway.VerifyOutcome.timeout).1 ≠ Gateway.AuthResult.Allow ∧
      (Gateway.authorize st p room rule now
          Gateway.VerifyOutcome.failure).1 ≠ Gateway.AuthResult.Allow := by
  intro st p room rule now hexp
  have key : ∀ o : Gateway.VerifyOutcome,
      o = Gateway.VerifyOutcome.timeout ∨ o = Gateway.VerifyOutcome.failure →
      (Gateway.authorize st p room rule now o).1 =
        Gateway.AuthResult.Error := by
    intro o ho
    cases hg : Gateway.lookupGrant st p room with
    | none =>
        simp only [Gateway.authorize, hg]
        rcases ho with h | h <;> subst h <;> rfl
    | some g =>
        simp only [Gateway.authorize, hg]
        rw [if_neg (Nat.not_lt.mpr (hexp g hg))]
        rcases ho with h | h <;> subst h <;> rfl
  have h1 := key Gateway.VerifyOutcome.timeout (Or.inl rfl)
  have h2 := key Gateway.VerifyOutcome.failure (Or.inr rfl)
  refine ⟨h1, h2, ?_, ?_⟩
  · rw [h1]; decide
  · rw [h2]; decide

/-- Witness for C2 at the empty cache. -/
theorem claim_C2_witness :
    (Gateway.authorize ⟨[]⟩ "p" "r" Gateway.GatingRule.openRoom 0
        Gateway.VerifyOutcome.timeout).1 = Gateway.AuthResult.Error ∧
    (Gateway.authorize ⟨[]⟩ "p" "r" Gateway.GatingRule.openRoom 0
        Gateway.VerifyOutcome.failure).1 = Gateway.AuthResult.Error ∧
    (Gateway.authorize ⟨[]⟩ "p" "r" Gateway.GatingRule.openRoom 0
        Gateway.VerifyOutcome.timeout).1 ≠ Gateway.AuthResult.Allow ∧
    (Gateway.authorize ⟨[]⟩ "p" "r" Gateway.GatingRule.openRoom 0
        Gateway.VerifyOutcome.failure).1 ≠ Gateway.AuthResult.Allow :=
  claim_C2_verifier_failure_denies ⟨[]⟩ "p" "r"
    Gateway.GatingRule.openRoom 0
    (fun g h => by simp [Gateway.lookupGrant] at h)

/-- C3: `next(room)` returns 1 on a room with no shared counter yet, every
subsequent call returns a strictly greater value, and any run of calls
against the shared counter — by any interleaving of gateway instances,
since no counter lives in instance memory — yields strictly increasing,
collision-free sequence numbers. -/
theorem claim_C3_sequencer_monotonic :
    ∀ (st : Gateway.SeqState) (room : String) (k : Nat),
      (st.counters.find? (fun e => e.1 == room) = none →
        (Gateway.next st room).1 = 1) ∧
      (Gateway.next (Gateway.next st room).2 room).1 =
        (Gateway.next st room).1 + 1 ∧
      List.Chain' (· < ·) (Gateway.nextCalls st room k) ∧
      (Gateway.nextCalls st room k).Nodup := by
  intro st room k
  have hfst : ∀ (s : Gateway.SeqState) (r : String),
      (Gateway.next s r).1 = Gateway.currentSeq s r + 1 := fun _ _ => rfl
  refine ⟨?_, ?_, ?_, ?_⟩
  · intro h
    rw [hfst]
    simp [Gateway.currentSeq, h]
  · rw [hfst (Gateway.next st room).2 room, Gateway.currentSeq_next]
  · exact (Gateway.nextCalls_pairwise k st room).chain'
  · exact (Gateway.nextCalls_pairwise k st room).imp Nat.ne_of_lt

/-- Witness for C3 at a fresh shared counter state. -/
theorem claim_C3_witness :
    (Gateway.next ⟨[]⟩ "r").1 = 1 ∧
    (Gateway.next (Gateway.next ⟨[]⟩ "r").2 "r").1 =
      (Gateway.next ⟨[]⟩ "r").1 + 1 ∧
    List.Chain' (· < ·) (Gateway.nextCalls ⟨[]⟩ "r" 3) ∧
    (Gateway.nextCalls ⟨[]⟩ "r" 3).Nodup :=
  ⟨(claim_C3_sequencer_monotonic ⟨[]⟩ "r" 3).1 (by decide),
   (claim_C3_sequencer_monotonic ⟨[]⟩ "r" 3).2.1,
   (claim_C3_sequencer_monotonic ⟨[]⟩ "r" 3).2.2.1,
   (claim_C3_sequencer_monotonic ⟨[]⟩ "r" 3).2.2.2⟩

/-- C4: when every published event reaches the subscriber at least once
(possibly duplicated) in non-decreasing sequence order, client-side dedup
by sequence number yields a strictly increasing, duplicate-free stream
that still contains every published event and nothing that was not
delivered. -/
theorem claim_C4_at_least_once_dedup :
    ∀ (published deliv : List Nat),
      (∀ s ∈ published, s ∈ deliv) →
      List.Chain' (· ≤ ·) deliv →
      List.Chain' (· < ·) (Gateway.clientDedup [] deliv) ∧
      (Gateway.clientDedup [] deliv).Nodup ∧
      (∀ s ∈ published, s ∈ Gateway.clientDedup [] deliv) ∧
      (∀ s ∈ Gateway.clientDedup [] deliv, s ∈ deliv) := by
  intro published deliv hpub hchain
  have hsub := Gateway.clientDedup_sublist deliv []
  have hpair : List.Pairwise (· ≤ ·) deliv :=
    List.chain'_iff_pairwise.mp hchain
  have hle : List.Pairwise (· ≤ ·) (Gateway.clientDedup [] deliv) :=
    hpair.sublist hsub
  have hnd : (Gateway.clientDedup [] deliv).Nodup :=
    Gateway.clientDedup_nodup deliv []
  have hlt : List.Pairwise (· < ·) (Gateway.clientDedup [] deliv) :=
    (hle.and hnd).imp fun hx => lt_of_le_of_ne hx.1 hx.2
  refine ⟨hlt.chain', hnd, ?_, ?_⟩
  · intro s hs
    exact (Gateway.mem_clientDedup deliv [] s).mpr ⟨hpub s hs, by simp⟩
  · intro s hs
    exact ((Gateway.mem_clientDedup deliv [] s).mp hs).1

/-- Witness for C4 at a concrete duplicated delivery stream. -/
theorem claim_C4_witness :
    List.Chain' (· < ·) (Gateway.clientDedup [] [1, 1, 2, 3]) ∧
    (Gateway.clientDedup [] [1, 1, 2, 3]).Nodup ∧
    2 ∈ Gateway.clientDedup [] [1, 1, 2, 3] :=
  ⟨(claim_C4_at_least_once_dedup [1, 2] [1, 1, 2, 3] (by decide)
      (by norm_num [List.chain'_cons])).1,
   (claim_C4_at_least_once_dedup [1, 2] [1, 1, 2, 3] (by decide)
      (by norm_num [List.chain'_cons])).2.1,
   (claim_C4_at_least_once_dedup [1, 2] [1, 1, 2, 3] (by decide)
      (by norm_num [List.chain'_cons])).2.2.1 2 (by decide)⟩

/-- C5: the connection state machine only moves forward along
`Connecting → Authorizing → Joined → Closing → Closed`; inbound
application messages are processed only in `Joined`; transport error,
explicit leave, ban and access revocation each force `Closing` from every
non-terminal state; and `Closed` is terminal. -/
theorem claim_C5_connection_lifecycle :
    (∀ (s : Gateway.ConnState) (e : Gateway.ConnEvent),
       s.rank ≤ (Gateway.connStep s e).rank) ∧
    (∀ s : Gateway.ConnState,
       Gateway.processesInbound s = true ↔ s = Gateway.ConnState.Joined) ∧
    (∀ s : Gateway.ConnState, s ≠ Gateway.ConnState.Closed →
       Gateway.connStep s Gateway.ConnEvent.transportError =
         Gateway.ConnState.Closing ∧
       Gateway.connStep s Gateway.ConnEvent.leaveRequest =
         Gateway.ConnState.Closing ∧
       Gateway.connStep s Gateway.ConnEvent.banned =
         Gateway.ConnState.Closing ∧
       Gateway.connStep s Gateway.ConnEvent.accessRevoked =
         Gateway.ConnState.Closing) ∧
    (∀ e : Gateway.ConnEvent,
       Gateway.connStep Gateway.ConnState.Closed e =
         Gateway.ConnState.Closed) := by
  refine ⟨?_, ?_, ?_, ?_⟩ <;> decide

/-- Witness for C5 at concrete states and events. -/
theorem claim_C5_witness :
    Gateway.connStep Gateway.ConnState.Connecting
        Gateway.ConnEvent.transportError = Gateway.ConnState.Closing ∧
    Gateway.connStep Gateway.ConnState.Closed
        Gateway.ConnEvent.inboundMessage = Gateway.ConnState.Closed :=
  ⟨(claim_C5_connection_lifecycle.2.2.1 Gateway.ConnState.Connecting
      (by decide)).1,
   claim_C5_connection_lifecycle.2.2.2 Gateway.ConnEvent.inboundMessage⟩

/-- C6 (counterexample): `reaction` is not an admissible value of the
`chat_messages.message_type` column — the SQL CHECK constraint admits only
`text`, `document_share`, `highlight` and `system`. -/
theorem claim_C6_counterexample :
    Gateway.chatMessageTypeAllowed "reaction" = false := by decide

/-- C6 (amended): the type of every stored message is exactly one of the
four kinds `text`, `document_share`, `highlight`, `system`; `reaction` is
not among them (reactions live in the separate `reactions` JSONB
column). -/
theorem claim_C6_amended_four_message_types :
    ∀ t : String, Gateway.chatMessageTypeAllowed t = true ↔
      t ∈ Gateway.allowedMessageTypes := by
  intro t
  simp [Gateway.chatMessageTypeAllowed, Gateway.allowedMessageTypes,
    or_assoc]

/-- C7: the inbound kinds are exactly the seven `WSMessageType` values and
the outbound kinds exactly the eight `WSBroadcastType` values, and every
outbound event serializes with exactly the fields
`(room_id, sequence, type, payload, timestamp)`. -/
theorem claim_C7_ws_kinds :
    Gateway.allWSMessageTypes.map Gateway.WSMessageType.value =
      ["chat_message", "typing_start", "typing_stop", "document_share",
       "highlight_create", "reaction_add", "socratic_query"] ∧
    (∀ t : Gateway.WSMessageType, t ∈ Gateway.allWSMessageTypes) ∧
    Gateway.allWSBroadcastTypes.map Gateway.WSBroadcastType.value =
      ["new_message", "user_joined", "user_left", "typing_status",
       "document_shared", "highlight_created", "achievement_earned",
       "socratic_response"] ∧
    (∀ t : Gateway.WSBroadcastType, t ∈ Gateway.allWSBroadcastTypes) ∧
    ∀ e : Gateway.OutboundEvent,
      (Gateway.serializeOutbound e).map Prod.fst =
        ["room_id", "sequence", "type", "payload", "timestamp"] := by
  refine ⟨rfl, ?_, rfl, ?_, ?_⟩
  · intro t; cases t <;> decide
  · intro t; cases t <;> decide
  · intro e; rfl

/-- C8: the channel names are in bijection with the channel shapes — one
channel per room for messages, presence and documents plus the single
cluster-wide notification channel, all with pairwise distinct names — and
no channel shape beyond these four exists. -/
theorem claim_C8_channel_shapes :
    (∀ c1 c2 : Gateway.Channel, c1.name = c2.name → c1 = c2) ∧
    ∀ c : Gateway.Channel,
      (∃ r, c = Gateway.Channel.messages r) ∨
      (∃ r, c = Gateway.Channel.presence r) ∨
      (∃ r, c = Gateway.Channel.documents r) ∨
      c = Gateway.Channel.globalNotifications := by
  refine ⟨Gateway.channel_name_inj, ?_⟩
  intro c
  cases c
  case messages r => exact Or.inl ⟨r, rfl⟩
  case presence r => exact Or.inr (Or.inl ⟨r, rfl⟩)
  case documents r => exact Or.inr (Or.inr (Or.inl ⟨r, rfl⟩))
  case globalNotifications => exact Or.inr (Or.inr (Or.inr rfl))

/-- Witness for C8 at a concrete pair of equal channel names. -/
theorem claim_C8_witness :
    Gateway.Channel.messages "alpha" = Gateway.Channel.messages "alpha" :=
  claim_C8_channel_shapes.1 (Gateway.Channel.messages "alpha")
    (Gateway.Channel.messages "alpha") rfl

/-- C9: invoked with no argument or with a first argument outside the
known command words, the script dispatch selects `show_help`, whose body
is echo lines only — no docker-compose, redis-cli or filesystem-mutating
effect. -/
theorem claim_C9_unknown_arg_shows_help :
    ClusterScript.dispatch none = ClusterScript.Handler.show_help ∧
    (∀ a : String, a ∉ ClusterScript.knownCommands →
       ClusterScript.dispatch (some a) = ClusterScript.Handler.show_help) ∧
    ∀ e ∈ ClusterScript.show_help, e.isEcho = true := by
  refine ⟨rfl, ?_, ?_⟩
  · intro a ha
    simp only [ClusterScript.knownCommands, List.mem_cons,
      List.not_mem_nil, or_false, not_or] at ha
    obtain ⟨h1, h2, h3, h4, h5, h6, h7, h8, h9⟩ := ha
    unfold ClusterScript.dispatch
    simp only [Option.getD_some]
  · decide

/-- Witness for C9 at a concrete unknown command word. -/
theorem claim_C9_witness :
    ClusterScript.dispatch (some "frobnicate") =
      ClusterScript.Handler.show_help :=
  claim_C9_unknown_arg_shows_help.2.1 "frobnicate" (by decide)

/-- C10: the stack navigator starts at SignIn with exactly the three
routes SignIn, SignUp, Home and hidden headers; the Home screen starts
with `booting = true`, so it renders the boot sequence first, and the
SYSTEM STATUS: ONLINE content renders exactly when `booting` is false,
which the boot sequence `onComplete` callback establishes. -/
theorem claim_C10_app_navigation_and_boot :
    App.appInitialRoute = "SignIn" ∧
    App.appRoutes = ["SignIn", "SignUp", "Home"] ∧
    App.appRoutes.length = 3 ∧
    App.appHeaderShown = false ∧
    App.homeInit.booting = true ∧
    App.homeRender App.homeInit = App.HomeRender.bootSeq App.bootMessages ∧
    App.homeRender (App.homeOnComplete App.homeInit) =
      App.HomeRender.online "SYSTEM STATUS: ONLINE" ∧
    ∀ s : App.HomeState,
      App.homeRender s = App.HomeRender.online "SYSTEM STATUS: ONLINE" ↔
        s.booting = false := by
  refine ⟨rfl, rfl, rfl, rfl, rfl, rfl, rfl, ?_⟩
  intro s
  obtain ⟨b⟩ := s
  cases b <;> simp [App.homeRender]
